import Mathlib

/-!
Shallow embedding of `src/imdb_tv_scraper.py` (List_to_TMDB).

The external lookup collaborator (Cinemagoer) is modelled as an oracle:
for each work-item position, a function from the 0-indexed attempt number
to what `ia.search_movie` does on that attempt (raise an error, or return
an ordered candidate list).  A candidate carries the data the core
inspects after `ia.update`: whether the details fetch raises, the `kind`
tag, whether `extract_show_data` would raise on it, and an identifier
standing for the extracted fields.  The filesystem artifacts
(progress marker, provisional CSV, the two failure sinks, final output)
are modelled as an explicit record of optional file contents; `None`
means the file does not exist.  The optional inter-item `--delay` sleep
changes no modelled state and is omitted.
-/

namespace ListToTMDB

/-- One candidate entity as the core sees it after `ia.search_movie`:
`fetchRaises` says whether `ia.update(result, info=['main'])` raises for
this candidate, `kind` is the type tag read afterwards, `extractError`
(when present) is the `(type(e).__name__, str(e))` pair that
`extract_show_data` would raise for it, and `cid` stands for the
candidate's identity / extracted field contents. -/
structure Candidate where
  fetchRaises : Bool
  kind : String
  extractError : Option (String × String)
  cid : Nat
deriving DecidableEq, Repr

/-- What `ia.search_movie(title)` does on one attempt: raise an error
(the pair `type(e).__name__`, `str(e)`), or return the result list. -/
inductive AttemptOutcome where
  | raises (errType errMsg : String)
  | returns (cands : List Candidate)
deriving DecidableEq, Repr

/-- Result of `search_tv_show`: the matched candidate (or `none`), the
error message (or `none`), and the backoff sleeps performed, in order. -/
structure SearchResult where
  found : Option Candidate
  error : Option String
  sleeps : List Nat
deriving DecidableEq, Repr

/-- Python's `str.strip()` whitespace set, restricted to ASCII (the
marker files and prompts here only ever hold ASCII). -/
def pyWhitespace (c : Char) : Bool :=
  c = ' ' || c = '\t' || c = '\n' || c = '\r' || c = '\x0b' || c = '\x0c'

/-- Strip `pyWhitespace` from both ends of a character list. -/
def pyStripChars (l : List Char) : List Char :=
  ((l.dropWhile pyWhitespace).reverse.dropWhile pyWhitespace).reverse

/-- Python's `s.strip()`. -/
def pyStrip (s : String) : String := String.mk (pyStripChars s.data)

/-- ASCII lowercase of one character (Python `str.lower()` on the ASCII
range, which is all the resume prompt compares against). -/
def pyLowerChar (c : Char) : Char :=
  if 'A' ≤ c ∧ c ≤ 'Z' then Char.ofNat (c.toNat + 32) else c

/-- Python's `s.lower()`. -/
def pyLower (s : String) : String := String.mk (s.data.map pyLowerChar)

/-- Occurrence of `pat` as a contiguous sublist of `s`. -/
def containsChars (s pat : List Char) : Bool :=
  match s with
  | [] => pat.isEmpty
  | _ :: rest => pat.isPrefixOf s || containsChars rest pat

/-- Python's `pat in s` substring test. -/
def containsSub (s pat : String) : Bool := containsChars s.data pat.data

/-- The `\x7b` character, written by code point. -/
def leftBrace : Char := Char.ofNat 123

/-- Lines 130-138: clean up verbose error messages.  (`isinstance(e, dict)`
is always false for a caught `Exception`, so only the `startswith` test
on `\x7b` matters.) -/
def cleanupMsg (m : String) : String :=
  if m.data.head? = some leftBrace then
    if containsSub m "405" then "HTTP 405: Not Allowed"
    else if containsSub m "429" then "HTTP 429: Too Many Requests"
    else "HTTP error"
  else m

/-- Line 141: retry-eligible (Transient) test on the cleaned message. -/
def isRetryable (m : String) : Bool :=
  containsSub m "405" || containsSub m "429" || containsSub m "Too Many Requests"

/-- Lines 109-120: walk the result list in order; a candidate whose
details fetch raises is skipped; the first one whose `kind` is
`tv series` or `tv mini series` is returned. -/
def candidateWalk : List Candidate → Option Candidate
  | [] => none
  | c :: rest =>
    if c.fetchRaises then candidateWalk rest
    else if c.kind = "tv series" || c.kind = "tv mini series" then some c
    else candidateWalk rest

/-- The `for attempt in range(max_retries)` loop of `search_tv_show`,
with `fuel = maxRetries - attempt` remaining iterations.  Exhausting the
fuel corresponds to the loop ending without a `return` (only possible
when `max_retries = 0`, or never from a well-formed call). -/
def searchFrom (item : Nat → AttemptOutcome) (maxRetries : Nat) :
    Nat → Nat → SearchResult
  | 0, _ => ⟨none, some "Max retries exceeded", []⟩
  | fuel + 1, attempt =>
    match item attempt with
    | .returns [] => ⟨none, some "No results found", []⟩
    | .returns (c :: cs) =>
      match candidateWalk (c :: cs) with
      | some found => ⟨some found, none, []⟩
      | none => ⟨none, some "No TV series found in results", []⟩
    | .raises errType errMsg =>
      let m := cleanupMsg errMsg
      if isRetryable m then
        if attempt < maxRetries - 1 then
          let r := searchFrom item maxRetries fuel (attempt + 1)
          ⟨r.found, r.error, 2 ^ (attempt + 1) :: r.sleeps⟩
        else ⟨none, some (errType ++ ": " ++ m), []⟩
      else ⟨none, some (errType ++ ": " ++ m), []⟩

/-- Lines 81-156: one logical lookup (search + candidate walk) wrapped in
the bounded retry loop. -/
def search_tv_show (item : Nat → AttemptOutcome) (maxRetries : Nat) : SearchResult :=
  searchFrom item maxRetries maxRetries 0

/-- The item oracle raises a retry-eligible error at attempt `k`. -/
def retryableRaise (item : Nat → AttemptOutcome) (k : Nat) : Prop :=
  ∃ ty m, item k = .raises ty m ∧ isRetryable (cleanupMsg m) = true

/-- One row of a CSV artifact: the `extract_show_data` output for a
candidate with its `Position`, or the empty row `\x7b\x7d` that
`append_to_csv(temp_csv, \x7b\x7d, write_header=True)` also writes. -/
inductive Row where
  | emptyRow
  | dataRow (position : Nat) (cid : Nat)
deriving DecidableEq, Repr

/-- A physical line of a CSV artifact: the header line or a record row. -/
inductive CsvLine where
  | header
  | row (r : Row)
deriving DecidableEq, Repr

/-- One block of the detailed failure log (position, title, error). -/
structure FailEntry where
  position : Nat
  title : String
  error : String
deriving DecidableEq, Repr

/-- The on-disk artifacts derived from the output path.  `none` means the
file does not exist.  The progress marker holds its raw text content. -/
structure FS where
  progress : Option String
  tempCsv : Option (List CsvLine)
  failedLog : Option (List FailEntry)
  failedList : Option (List String)
  finalOut : Option (List CsvLine)
deriving DecidableEq, Repr

/-- Lines 28-32: `save_progress` overwrites the marker file with
`str(position)`. -/
def save_progress (fs : FS) (position : Nat) : FS :=
  { fs with progress := some (toString position) }

/-- A non-empty run of decimal digits, as a `Nat`. -/
def parseDigits (l : List Char) : Option Nat :=
  if l ≠ [] ∧ l.all Char.isDigit then
    some (l.foldl (fun a c => a * 10 + (c.toNat - 48)) 0)
  else none

/-- Python's `int(s.strip())` on the marker file content, as an
`Option`: optional sign, then a non-empty run of decimal digits
(Unicode digit forms and `_` separators are not modelled; no claim
depends on them). -/
def parsePyInt (s : String) : Option Int :=
  let t := pyStripChars s.data
  let isNeg := t.head? = some '-'
  let core := if isNeg ∨ t.head? = some '+' then t.tail else t
  match parseDigits core with
  | some n => some (if isNeg then -(n : Int) else (n : Int))
  | none => none

/-- Lines 34-43: `load_progress` returns `None` when the marker file is
absent, and `None` on any parse failure (the bare `except`). -/
def load_progress (fs : FS) : Option Int :=
  match fs.progress with
  | some content => parsePyInt content
  | none => none

/-- Lines 45-59: `append_to_csv`.  With `write_header` the file is opened
in mode `w` (truncated), the header is written, and then — always — the
given row is written; without it the row is appended (creating the file
when absent). -/
def append_to_csv (file : Option (List CsvLine)) (r : Row) (writeHeader : Bool) :
    List CsvLine :=
  if writeHeader then [CsvLine.header, CsvLine.row r]
  else (file.getD []) ++ [CsvLine.row r]

/-- Lines 61-79: `append_failure` appends one block to the detailed log
(creating it, with its one-time header, when absent) and one line to the
plain failed list. -/
def append_failure (fs : FS) (position : Nat) (title error : String) : FS :=
  { fs with
      failedLog := some ((fs.failedLog.getD []) ++ [⟨position, title, error⟩]),
      failedList := some ((fs.failedList.getD []) ++ [title]) }

/-- Line 250: the Python truthiness test `last_position and
os.path.exists(temp_csv)` that decides whether the resume prompt is
shown (a stored marker of `0` is falsy). -/
def resumePromptShown (fs : FS) : Bool :=
  match load_progress fs with
  | some last => last != 0 && fs.tempCsv.isSome
  | none => false

/-- Lines 246-264: compute the start position and the artifact state
after the resume/restart decision.  `answer` is the operator's reply;
`'y'` (after strip/lower) resumes at `marker+1`, anything else restarts
at 1 and deletes the temp CSV and the marker. -/
def computeStart (fs : FS) (answer : String) : Int × FS :=
  match load_progress fs with
  | some last =>
    if last != 0 && fs.tempCsv.isSome then
      if pyLower (pyStrip answer) == "y" then (last + 1, fs)
      else (1, { fs with tempCsv := none, progress := none })
    else (1, fs)
  | none => (1, fs)

/-- Lines 246-268: the full startup phase: the resume/restart decision
followed by `append_to_csv(temp_csv, \x7b\x7d, write_header=True)` when
starting fresh (`start_position == 1`). -/
def startupState (fs : FS) (answer : String) : Int × FS :=
  let c := computeStart fs answer
  (c.1,
    if c.1 = 1 then
      { c.2 with tempCsv := some (append_to_csv c.2.tempCsv Row.emptyRow true) }
    else c.2)

/-- Observable events of a run, in order: a lookup call for a position,
a backoff sleep (seconds), the per-position outcome record, and a
progress save. -/
inductive Event where
  | lookupCall (position : Nat)
  | sleep (secs : Nat)
  | successRecorded (position : Nat)
  | failureRecorded (position : Nat)
  | progressSaved (position : Nat)
deriving DecidableEq, Repr

/-- The position an event concerns, when it has one. -/
def eventPos : Event → Option Nat
  | .lookupCall p => some p
  | .sleep _ => none
  | .successRecorded p => some p
  | .failureRecorded p => some p
  | .progressSaved p => some p

/-- The mutable state of the processing loop: artifacts, the in-memory
`results` list, the two counters, and the event trace. -/
structure LoopState where
  fs : FS
  results : List Row
  success_count : Nat
  failed_count : Nat
  trace : List Event
deriving Repr

/-- Line 303: `error if error else 'Not found'`. -/
def errorOrNotFound : Option String → String
  | some e => if e = "" then "Not found" else e
  | none => "Not found"

/-- Lines 277-312: the body of the per-position loop.  A position below
the start position is skipped entirely; otherwise the lookup runs, the
outcome is routed to the accumulator or the failure sinks, and every
10th position the progress marker is saved. -/
def processItem (lookup : Nat → Nat → AttemptOutcome) (start : Int)
    (st : LoopState) (position : Nat) (title : String) : LoopState :=
  if (position : Int) < start then st
  else
    let sr := search_tv_show (lookup position) 3
    let st1 := { st with
      trace := st.trace ++ Event.lookupCall position :: sr.sleeps.map Event.sleep }
    let st2 :=
      match sr.found with
      | some c =>
        match c.extractError with
        | none =>
          let r := Row.dataRow position c.cid
          { st1 with
              results := st1.results ++ [r],
              fs := { st1.fs with
                tempCsv := some (append_to_csv st1.fs.tempCsv r false) },
              success_count := st1.success_count + 1,
              trace := st1.trace ++ [Event.successRecorded position] }
        | some (ty, ms) =>
          let msg := "Data extraction failed: " ++ ty ++ ": " ++ ms
          { st1 with
              fs := append_failure st1.fs position title msg,
              failed_count := st1.failed_count + 1,
              trace := st1.trace ++ [Event.failureRecorded position] }
      | none =>
        { st1 with
            fs := append_failure st1.fs position title (errorOrNotFound sr.error),
            failed_count := st1.failed_count + 1,
            trace := st1.trace ++ [Event.failureRecorded position] }
    if position % 10 = 0 then
      { st2 with
          fs := save_progress st2.fs position,
          trace := st2.trace ++ [Event.progressSaved position] }
    else st2

/-- Lines 277-319: `for position, title in enumerate(tv_shows, start=1)`. -/
def processLoop (lookup : Nat → Nat → AttemptOutcome) (start : Int) :
    List String → Nat → LoopState → LoopState
  | [], _, st => st
  | title :: rest, pos, st =>
    processLoop lookup start rest (pos + 1) (processItem lookup start st pos title)

/-- The loop state at the top of the loop: the post-startup artifacts,
empty results, zero counters, empty trace. -/
def initState (fs : FS) : LoopState := ⟨fs, [], 0, 0, []⟩

/-- The external inputs of one invocation: the work list (already
stripped of blank lines), the lookup oracle (position → attempt →
outcome), and the operator's reply to the resume prompt. -/
structure RunEnv where
  tvShows : List String
  lookup : Nat → Nat → AttemptOutcome
  resumeAnswer : String

/-- The loop state after the startup phase and the first `k` positions
of the work list. -/
def stateAfter (env : RunEnv) (fs0 : FS) (k : Nat) : LoopState :=
  let s := startupState fs0 env.resumeAnswer
  processLoop env.lookup s.1 (env.tvShows.take k) 1 (initState s.2)

/-- Lines 223-341: `process_tv_list` — startup, the loop, then the final
write (header plus the in-memory `results` of this segment only) and
deletion of the temp CSV and the progress marker. -/
def process_tv_list (env : RunEnv) (fs0 : FS) : LoopState :=
  let s := startupState fs0 env.resumeAnswer
  let st := processLoop env.lookup s.1 env.tvShows 1 (initState s.2)
  { st with fs := { st.fs with
      finalOut := some (CsvLine.header :: st.results.map CsvLine.row),
      tempCsv := none,
      progress := none } }

/-- The outcome record event a processed position appends: success when
a candidate was matched and extraction succeeds, failure otherwise. -/
def outcomeEvent (pos : Nat) (sr : SearchResult) : Event :=
  match sr.found with
  | some c =>
    match c.extractError with
    | none => Event.successRecorded pos
    | some _ => Event.failureRecorded pos
  | none => Event.failureRecorded pos

/-- The events one loop iteration appends to the trace (empty when the
position is skipped on resume). -/
def itemTrace (lookup : Nat → Nat → AttemptOutcome) (start : Int) (pos : Nat) :
    List Event :=
  if (pos : Int) < start then []
  else
    let sr := search_tv_show (lookup pos) 3
    (Event.lookupCall pos :: sr.sleeps.map Event.sleep)
      ++ [outcomeEvent pos sr]
      ++ (if pos % 10 = 0 then [Event.progressSaved pos] else [])

/-- The full trace of the loop over a work-list suffix starting at a
given position. -/
def runTrace (lookup : Nat → Nat → AttemptOutcome) (start : Int) :
    List String → Nat → List Event
  | [], _ => []
  | _ :: rest, pos => itemTrace lookup start pos ++ runTrace lookup start rest (pos + 1)

/-- The position of a progress-save event. -/
def savedOf : Event → Option Nat
  | .progressSaved p => some p
  | _ => none

/-- The sequence of marker values persisted during a run, in order. -/
def savedPositions (tr : List Event) : List Nat := tr.filterMap savedOf

/-- Whether an event is the outcome record of position `p`. -/
def isOutcomeFor (p : Nat) : Event → Bool
  | .successRecorded q => q == p
  | .failureRecorded q => q == p
  | _ => false

/-- How many outcome records (success or failure) a trace holds for
position `p`. -/
def outcomeCount (tr : List Event) (p : Nat) : Nat :=
  (tr.filter (isOutcomeFor p)).length

/-- The number of positions in `pos, pos+1, …, pos+n-1` that are at or
beyond the start position, i.e. that the loop actually processes. -/
def processedCount (start : Int) : Nat → Nat → Nat
  | _, 0 => 0
  | pos, n + 1 => (if (pos : Int) < start then 0 else 1) + processedCount start (pos + 1) n

/-! ### Concrete instances used by witnesses and counterexamples -/

/-- An empty filesystem: no artifact exists. -/
def fsEmpty : FS := ⟨none, none, none, none, none⟩

/-- A lookup world whose searches always return the empty list. -/
def emptyLookup : Nat → Nat → AttemptOutcome := fun _ _ => AttemptOutcome.returns []

/-- Resume scenario: marker `2`, provisional store present, operator answers `y`. -/
def fsC1 : FS := ⟨some "2", some [CsvLine.header], none, none, none⟩

/-- Three-item run resumed with answer `y`. -/
def envC1 : RunEnv := ⟨["a", "b", "c"], emptyLookup, "y"⟩

/-- Ten-item fresh run. -/
def envC2 : RunEnv := ⟨List.replicate 10 "t", emptyLookup, ""⟩

/-- One-item run with marker `1` and a provisional store, resumed with `y`:
the single position is skipped, so no outcome is produced at all. -/
def envC3 : RunEnv := ⟨["A"], emptyLookup, "y"⟩

/-- Marker `1` plus provisional store, for the C3 counterexample. -/
def fsC3 : FS := ⟨some "1", some [CsvLine.header], none, none, none⟩

/-- Lookup behavior: transient errors on attempts 0 and 1, then a match. -/
def itemC4 : Nat → AttemptOutcome := fun k =>
  if k < 2 then AttemptOutcome.raises "IMDbDataAccessError" "HTTP 429: Too Many Requests"
  else AttemptOutcome.returns [⟨false, "tv series", none, 7⟩]

/-- Lookup behavior: a permanent (non-retryable) error on every attempt. -/
def itemC5 : Nat → AttemptOutcome := fun _ =>
  AttemptOutcome.raises "IMDbParserError" "something went wrong"

/-- Candidate list for C6: a raising candidate, then a wrong-kind
candidate, then an accepted series. -/
def candsC6 : List Candidate :=
  [⟨true, "tv series", none, 1⟩, ⟨false, "movie", none, 2⟩, ⟨false, "tv series", none, 3⟩]

/-- Lookup behavior returning the C6 candidate list on every attempt. -/
def itemC6 : Nat → AttemptOutcome := fun _ => AttemptOutcome.returns candsC6

/-- Resume scenario with one pre-interruption success already in the
provisional store. -/
def fsC7 : FS :=
  ⟨some "1", some [CsvLine.header, CsvLine.row (Row.dataRow 1 5)], none, none, none⟩

/-- Two-item run resumed with answer `y` over the store of `fsC7`. -/
def envC7 : RunEnv := ⟨["A", "B"], emptyLookup, "y"⟩

/-- Restart scenario: marker `5`, provisional store, pre-existing failure
sinks, operator answers `n`. -/
def fsC8 : FS :=
  ⟨some "5", some [CsvLine.header], some [⟨1, "old", "err"⟩], some ["old"], none⟩

/-- One-item run restarted from the beginning. -/
def envC8 : RunEnv := ⟨["A"], emptyLookup, "n"⟩

/-- Fresh-start scenario: no artifacts at all. -/
def envC9 : RunEnv := ⟨["A"], emptyLookup, ""⟩

/-- Marker file holding `0`, provisional store present. -/
def fsC10a : FS := ⟨some "0", some [CsvLine.header], none, none, none⟩

/-- Marker file holding unparsable text. -/
def fsC10b : FS := ⟨some "not a number", some [CsvLine.header], none, none, none⟩

/-! ### Structural lemmas about the loop -/

lemma processItem_skip {lookup : Nat → Nat → AttemptOutcome} {start : Int}
    {st : LoopState} {pos : Nat} {title : String} (h : (pos : Int) < start) :
    processItem lookup start st pos title = st := by
  unfold processItem
  simp [h]

lemma processLoop_append (lookup : Nat → Nat → AttemptOutcome) (start : Int)
    (l₁ l₂ : List String) : ∀ (pos : Nat) (st : LoopState),
    processLoop lookup start (l₁ ++ l₂) pos st
      = processLoop lookup start l₂ (pos + l₁.length)
          (processLoop lookup start l₁ pos st) := by
  induction l₁ with
  | nil => intro pos st; simp [processLoop]
  | cons t rest ih =>
    intro pos st
    have h1 : processLoop lookup start ((t :: rest) ++ l₂) pos st
        = processLoop lookup start (rest ++ l₂) (pos + 1)
            (processItem lookup start st pos t) := rfl
    have h2 : processLoop lookup start (t :: rest) pos st
        = processLoop lookup start rest (pos + 1)
            (processItem lookup start st pos t) := rfl
    have harith : pos + 1 + rest.length = pos + (t :: rest).length := by
      simp [List.length_cons]; omega
    rw [h1, h2, ih, harith]

lemma processItem_trace (lookup : Nat → Nat → AttemptOutcome) (start : Int)
    (st : LoopState) (pos : Nat) (title : String) :
    (processItem lookup start st pos title).trace
      = st.trace ++ itemTrace lookup start pos := by
  unfold processItem itemTrace outcomeEvent
  by_cases h : (pos : Int) < start
  · simp [h]
  · simp only [h, if_false]
    cases hf : (search_tv_show (lookup pos) 3).found with
    | none =>
      by_cases hp : pos % 10 = 0 <;> simp [hf, hp, List.append_assoc]
    | some c =>
      cases he : c.extractError with
      | none =>
        by_cases hp : pos % 10 = 0 <;> simp [hf, he, hp, List.append_assoc]
      | some p =>
        rcases p with ⟨ty, ms⟩
        by_cases hp : pos % 10 = 0 <;> simp [hf, he, hp, List.append_assoc]

lemma processLoop_trace (lookup : Nat → Nat → AttemptOutcome) (start : Int) :
    ∀ (l : List String) (pos : Nat) (st : LoopState),
    (processLoop lookup start l pos st).trace
      = st.trace ++ runTrace lookup start l pos := by
  intro l
  induction l with
  | nil => intro pos st; simp [processLoop, runTrace]
  | cons t rest ih =>
    intro pos st
    simp [processLoop, runTrace, ih, processItem_trace]

lemma outcomeEvent_eventPos (pos : Nat) (sr : SearchResult) :
    eventPos (outcomeEvent pos sr) = some pos := by
  rcases sr with ⟨found, error, sleeps⟩
  rcases found with _ | c
  · rfl
  · rcases c with ⟨fr, k, ee, cid⟩
    rcases ee with _ | p <;> rfl

lemma mem_itemTrace_pos {lookup : Nat → Nat → AttemptOutcome} {start : Int}
    {pos : Nat} {e : Event} {q : Nat}
    (he : e ∈ itemTrace lookup start pos) (hq : eventPos e = some q) :
    q = pos ∧ start ≤ (pos : Int) := by
  unfold itemTrace at he
  by_cases h : (pos : Int) < start
  · simp [h] at he
  · refine ⟨?_, by omega⟩
    by_cases hp : pos % 10 = 0 <;>
      simp only [h, if_false, hp, if_true, List.mem_append, List.mem_cons,
        List.mem_map, List.not_mem_nil, or_false, false_or] at he
    · rcases he with ((rfl | ⟨s, _, rfl⟩) | rfl) | rfl
      · simp [eventPos] at hq; exact hq.symm
      · simp [eventPos] at hq
      · rw [outcomeEvent_eventPos] at hq
        exact (Option.some_inj.1 hq).symm
      · simp [eventPos] at hq; exact hq.symm
    · rcases he with (rfl | ⟨s, _, rfl⟩) | rfl
      · simp [eventPos] at hq; exact hq.symm
      · simp [eventPos] at hq
      · rw [outcomeEvent_eventPos] at hq
        exact (Option.some_inj.1 hq).symm

lemma mem_runTrace_pos {lookup : Nat → Nat → AttemptOutcome} {start : Int} :
    ∀ (l : List String) (pos : Nat) (e : Event) (q : Nat),
      e ∈ runTrace lookup start l pos → eventPos e = some q →
      start ≤ (q : Int) ∧ pos ≤ q := by
  intro l
  induction l with
  | nil => intro pos e q he _; simp [runTrace] at he
  | cons t rest ih =>
    intro pos e q he hq
    rw [runTrace] at he
    rcases List.mem_append.1 he with h | h
    · obtain ⟨rfl, h2⟩ := mem_itemTrace_pos h hq
      exact ⟨h2, le_refl _⟩
    · obtain ⟨h1, h2⟩ := ih (pos + 1) e q h hq
      exact ⟨h1, by omega⟩

lemma savedOf_outcomeEvent (pos : Nat) (sr : SearchResult) :
    savedOf (outcomeEvent pos sr) = none := by
  rcases sr with ⟨found, error, sleeps⟩
  rcases found with _ | c
  · rfl
  · rcases c with ⟨fr, k, ee, cid⟩
    rcases ee with _ | p <;> rfl

lemma savedOf_lookupCall (p : Nat) : savedOf (Event.lookupCall p) = none := rfl

lemma savedOf_progressSaved (p : Nat) : savedOf (Event.progressSaved p) = some p := rfl

lemma savedOf_sleep (s : Nat) : savedOf (Event.sleep s) = none := rfl

lemma filterMap_savedOf_sleeps (l : List Nat) :
    List.filterMap savedOf (l.map Event.sleep) = [] := by
  induction l with
  | nil => rfl
  | cons s rest ih => simp [List.filterMap_cons, savedOf, ih]

lemma savedPositions_itemTrace (lookup : Nat → Nat → AttemptOutcome)
    (start : Int) (pos : Nat) :
    savedPositions (itemTrace lookup start pos)
      = if (pos : Int) < start then [] else if pos % 10 = 0 then [pos] else [] := by
  unfold itemTrace savedPositions
  by_cases h : (pos : Int) < start
  · simp [h]
  · by_cases hp : pos % 10 = 0 <;>
      simp [h, hp, List.filterMap_append, List.filterMap_cons,
        filterMap_savedOf_sleeps, savedOf_outcomeEvent, savedOf_lookupCall,
        savedOf_progressSaved, savedOf_sleep]

lemma runTrace_saved_mono {lookup : Nat → Nat → AttemptOutcome} {start : Int} :
    ∀ (l : List String) (pos : Nat),
      List.Chain' (· ≤ ·) (savedPositions (runTrace lookup start l pos))
      ∧ ∀ q ∈ savedPositions (runTrace lookup start l pos), pos ≤ q := by
  intro l
  induction l with
  | nil => intro pos; simp [runTrace, savedPositions]
  | cons t rest ih =>
    intro pos
    obtain ⟨ihchain, ihmem⟩ := ih (pos + 1)
    have hsplit : savedPositions (runTrace lookup start (t :: rest) pos)
        = savedPositions (itemTrace lookup start pos)
          ++ savedPositions (runTrace lookup start rest (pos + 1)) := by
      simp only [runTrace, savedPositions, List.filterMap_append]
    rw [hsplit, savedPositions_itemTrace]
    by_cases h : (pos : Int) < start
    · rw [if_pos h, List.nil_append]
      exact ⟨ihchain, fun q hq => Nat.le_of_succ_le (ihmem q hq)⟩
    · rw [if_neg h]
      by_cases hp : pos % 10 = 0
      · rw [if_pos hp, List.singleton_append]
        constructor
        · rw [List.chain'_cons']
          exact ⟨fun y hy => Nat.le_of_succ_le (ihmem y (List.mem_of_mem_head? hy)),
            ihchain⟩
        · intro q hq
          rcases List.mem_cons.1 hq with rfl | hq
          · exact le_refl _
          · exact Nat.le_of_succ_le (ihmem q hq)
      · rw [if_neg hp, List.nil_append]
        exact ⟨ihchain, fun q hq => Nat.le_of_succ_le (ihmem q hq)⟩

lemma processItem_counts (lookup : Nat → Nat → AttemptOutcome) (start : Int)
    (st : LoopState) (pos : Nat) (title : String) :
    (processItem lookup start st pos title).success_count
        + (processItem lookup start st pos title).failed_count
      = st.success_count + st.failed_count
        + (if (pos : Int) < start then 0 else 1) := by
  unfold processItem
  by_cases h : (pos : Int) < start
  · simp [h]
  · simp only [h, if_false]
    cases hf : (search_tv_show (lookup pos) 3).found with
    | none => by_cases hp : pos % 10 = 0 <;> simp [hf, hp, append_failure] <;> omega
    | some c =>
      cases he : c.extractError with
      | none => by_cases hp : pos % 10 = 0 <;> simp [hf, he, hp] <;> omega
      | some p =>
        rcases p with ⟨ty, ms⟩
        by_cases hp : pos % 10 = 0 <;> simp [hf, he, hp, append_failure] <;> omega

lemma processItem_progress {lookup : Nat → Nat → AttemptOutcome} {start : Int}
    (st : LoopState) (pos : Nat) (title : String)
    (h : ¬ (pos : Int) < start) (hp : pos % 10 = 0) :
    (processItem lookup start st pos title).fs.progress = some (toString pos) := by
  unfold processItem
  simp only [h, if_false]
  cases hf : (search_tv_show (lookup pos) 3).found with
  | none => simp [hf, hp, append_failure, save_progress]
  | some c =>
    cases he : c.extractError with
    | none => simp [hf, he, hp, save_progress]
    | some p => rcases p with ⟨ty, ms⟩; simp [hf, he, hp, append_failure, save_progress]

lemma processItem_results_mem {lookup : Nat → Nat → AttemptOutcome} {start : Int}
    {st : LoopState} {pos : Nat} {title : String} {r : Row}
    (h : r ∈ (processItem lookup start st pos title).results) :
    r ∈ st.results ∨ ∃ c : Nat, r = Row.dataRow pos c ∧ start ≤ (pos : Int) := by
  unfold processItem at h
  by_cases hs : (pos : Int) < start
  · simp only [hs, if_true] at h
    exact Or.inl h
  · simp only [hs, if_false] at h
    cases hf : (search_tv_show (lookup pos) 3).found with
    | none =>
      by_cases hp : pos % 10 = 0 <;>
        simp only [hf, hp, if_true, if_false] at h <;> exact Or.inl h
    | some c =>
      cases he : c.extractError with
      | none =>
        by_cases hp : pos % 10 = 0 <;>
          · simp [hf, he, hp, save_progress] at h
            rcases h with h | rfl
            · exact Or.inl h
            · exact Or.inr ⟨c.cid, rfl, by omega⟩
      | some p =>
        rcases p with ⟨ty, ms⟩
        by_cases hp : pos % 10 = 0 <;>
          simp only [hf, he, hp, if_true, if_false] at h <;> exact Or.inl h

lemma processItem_results_len (lookup : Nat → Nat → AttemptOutcome) (start : Int)
    (st : LoopState) (pos : Nat) (title : String) :
    (processItem lookup start st pos title).results.length + st.success_count
      = st.results.length + (processItem lookup start st pos title).success_count := by
  unfold processItem
  by_cases h : (pos : Int) < start
  · simp [h]
  · simp only [h, if_false]
    cases hf : (search_tv_show (lookup pos) 3).found with
    | none => by_cases hp : pos % 10 = 0 <;> simp [hf, hp, append_failure]
    | some c =>
      cases he : c.extractError with
      | none => by_cases hp : pos % 10 = 0 <;> simp [hf, he, hp] <;> omega
      | some p =>
        rcases p with ⟨ty, ms⟩
        by_cases hp : pos % 10 = 0 <;> simp [hf, he, hp, append_failure]

lemma processItem_failedList_len (lookup : Nat → Nat → AttemptOutcome) (start : Int)
    (st : LoopState) (pos : Nat) (title : String) :
    (((processItem lookup start st pos title).fs.failedList).getD []).length
        + st.failed_count
      = ((st.fs.failedList.getD []).length)
        + (processItem lookup start st pos title).failed_count := by
  unfold processItem
  by_cases h : (pos : Int) < start
  · simp [h]
  · simp only [h, if_false]
    cases hf : (search_tv_show (lookup pos) 3).found with
    | none => by_cases hp : pos % 10 = 0 <;> simp [hf, hp, append_failure, save_progress] <;> omega
    | some c =>
      cases he : c.extractError with
      | none => by_cases hp : pos % 10 = 0 <;> simp [hf, he, hp, save_progress]
      | some p =>
        rcases p with ⟨ty, ms⟩
        by_cases hp : pos % 10 = 0 <;> simp [hf, he, hp, append_failure, save_progress] <;> omega

lemma processLoop_counts (lookup : Nat → Nat → AttemptOutcome) (start : Int) :
    ∀ (l : List String) (pos : Nat) (st : LoopState),
    (processLoop lookup start l pos st).success_count
        + (processLoop lookup start l pos st).failed_count
      = st.success_count + st.failed_count + processedCount start pos l.length := by
  intro l
  induction l with
  | nil => intro pos st; simp [processLoop, processedCount]
  | cons t rest ih =>
    intro pos st
    have h2 : processLoop lookup start (t :: rest) pos st
        = processLoop lookup start rest (pos + 1)
            (processItem lookup start st pos t) := rfl
    rw [h2, ih]
    have hone := processItem_counts lookup start st pos t
    simp only [List.length_cons, processedCount]
    by_cases hs : (pos : Int) < start <;> simp [hs] at hone ⊢ <;> omega

lemma processLoop_results_len (lookup : Nat → Nat → AttemptOutcome) (start : Int) :
    ∀ (l : List String) (pos : Nat) (st : LoopState),
    (processLoop lookup start l pos st).results.length + st.success_count
      = st.results.length + (processLoop lookup start l pos st).success_count := by
  intro l
  induction l with
  | nil => intro pos st; simp [processLoop]
  | cons t rest ih =>
    intro pos st
    have h2 : processLoop lookup start (t :: rest) pos st
        = processLoop lookup start rest (pos + 1)
            (processItem lookup start st pos t) := rfl
    rw [h2]
    have h3 := ih (pos + 1) (processItem lookup start st pos t)
    have h4 := processItem_results_len lookup start st pos t
    omega

lemma processLoop_failedList_len (lookup : Nat → Nat → AttemptOutcome) (start : Int) :
    ∀ (l : List String) (pos : Nat) (st : LoopState),
    (((processLoop lookup start l pos st).fs.failedList).getD []).length
        + st.failed_count
      = ((st.fs.failedList.getD []).length)
        + (processLoop lookup start l pos st).failed_count := by
  intro l
  induction l with
  | nil => intro pos st; simp [processLoop]
  | cons t rest ih =>
    intro pos st
    have h2 : processLoop lookup start (t :: rest) pos st
        = processLoop lookup start rest (pos + 1)
            (processItem lookup start st pos t) := rfl
    rw [h2]
    have h3 := ih (pos + 1) (processItem lookup start st pos t)
    have h4 := processItem_failedList_len lookup start st pos t
    omega

lemma processLoop_results_mem {lookup : Nat → Nat → AttemptOutcome} {start : Int} :
    ∀ (l : List String) (pos : Nat) (st : LoopState) (r : Row),
      r ∈ (processLoop lookup start l pos st).results →
      r ∈ st.results ∨ ∃ q c, r = Row.dataRow q c ∧ start ≤ (q : Int) := by
  intro l
  induction l with
  | nil =>
    intro pos st r h
    exact Or.inl (by simpa [processLoop] using h)
  | cons t rest ih =>
    intro pos st r h
    have h2 : processLoop lookup start (t :: rest) pos st
        = processLoop lookup start rest (pos + 1)
            (processItem lookup start st pos t) := rfl
    rw [h2] at h
    rcases ih (pos + 1) _ r h with h | h
    · rcases processItem_results_mem h with h | ⟨c, rfl, hle⟩
      · exact Or.inl h
      · exact Or.inr ⟨pos, c, rfl, hle⟩
    · exact Or.inr h

lemma isOutcomeFor_outcomeEvent (p pos : Nat) (sr : SearchResult) :
    isOutcomeFor p (outcomeEvent pos sr) = (pos == p) := by
  rcases sr with ⟨found, error, sleeps⟩
  rcases found with _ | c
  · rfl
  · rcases c with ⟨fr, k, ee, cid⟩
    rcases ee with _ | q <;> rfl

lemma isOutcomeFor_lookupCall (p q : Nat) :
    isOutcomeFor p (Event.lookupCall q) = false := rfl

lemma isOutcomeFor_progressSaved (p q : Nat) :
    isOutcomeFor p (Event.progressSaved q) = false := rfl

lemma filter_isOutcomeFor_sleeps (p : Nat) (l : List Nat) :
    (l.map Event.sleep).filter (isOutcomeFor p) = [] := by
  induction l with
  | nil => rfl
  | cons s rest ih => simp [List.filter_cons, isOutcomeFor, ih]

lemma outcomeCount_itemTrace (lookup : Nat → Nat → AttemptOutcome) (start : Int)
    (pos p : Nat) :
    outcomeCount (itemTrace lookup start pos) p
      = if (pos : Int) < start then 0 else if pos = p then 1 else 0 := by
  unfold itemTrace outcomeCount
  by_cases h : (pos : Int) < start
  · simp [h]
  · by_cases hpp : pos = p
    · subst hpp
      by_cases hp : pos % 10 = 0 <;>
        simp [h, hp, List.filter_append, List.filter_cons,
          filter_isOutcomeFor_sleeps, isOutcomeFor_outcomeEvent,
          isOutcomeFor_lookupCall, isOutcomeFor_progressSaved]
    · by_cases hp : pos % 10 = 0 <;>
        simp [h, hp, hpp, List.filter_append, List.filter_cons,
          filter_isOutcomeFor_sleeps, isOutcomeFor_outcomeEvent,
          isOutcomeFor_lookupCall, isOutcomeFor_progressSaved]

lemma outcomeCount_runTrace {lookup : Nat → Nat → AttemptOutcome} {start : Int}
    {p : Nat} : ∀ (l : List String) (pos : Nat),
    outcomeCount (runTrace lookup start l pos) p
      = if pos ≤ p ∧ p < pos + l.length ∧ start ≤ (p : Int) then 1 else 0 := by
  intro l
  induction l with
  | nil =>
    intro pos
    simp only [runTrace, outcomeCount, List.filter_nil, List.length_nil,
      List.length_nil]
    split_ifs <;> omega
  | cons t rest ih =>
    intro pos
    have hsplit : outcomeCount (runTrace lookup start (t :: rest) pos) p
        = outcomeCount (itemTrace lookup start pos) p
          + outcomeCount (runTrace lookup start rest (pos + 1)) p := by
      simp [runTrace, outcomeCount, List.filter_append]
    rw [hsplit, outcomeCount_itemTrace, ih]
    simp only [List.length_cons]
    by_cases h1 : (pos : Int) < start <;> by_cases h2 : pos = p <;>
      split_ifs <;> omega

lemma processItem_failure {lookup : Nat → Nat → AttemptOutcome} {start : Int}
    (st : LoopState) {pos : Nat} (title : String)
    (h : ¬ (pos : Int) < start)
    (hf : (search_tv_show (lookup pos) 3).found = none) :
    (processItem lookup start st pos title).fs.failedLog
        = some ((st.fs.failedLog.getD [])
            ++ [⟨pos, title, errorOrNotFound (search_tv_show (lookup pos) 3).error⟩])
      ∧ (processItem lookup start st pos title).fs.failedList
        = some ((st.fs.failedList.getD []) ++ [title])
      ∧ (processItem lookup start st pos title).failed_count = st.failed_count + 1
      ∧ (processItem lookup start st pos title).success_count = st.success_count := by
  unfold processItem
  simp only [h, if_false]
  by_cases hp : pos % 10 = 0 <;> simp [hf, hp, append_failure, save_progress]

lemma processItem_success {lookup : Nat → Nat → AttemptOutcome} {start : Int}
    (st : LoopState) {pos : Nat} (title : String) {c : Candidate}
    (h : ¬ (pos : Int) < start)
    (hf : (search_tv_show (lookup pos) 3).found = some c)
    (he : c.extractError = none) :
    (processItem lookup start st pos title).success_count = st.success_count + 1
      ∧ (processItem lookup start st pos title).failed_count = st.failed_count
      ∧ (processItem lookup start st pos title).results
        = st.results ++ [Row.dataRow pos c.cid]
      ∧ (processItem lookup start st pos title).fs.tempCsv
        = some (append_to_csv st.fs.tempCsv (Row.dataRow pos c.cid) false)
      ∧ Event.successRecorded pos ∈ (processItem lookup start st pos title).trace := by
  unfold processItem
  simp only [h, if_false]
  by_cases hp : pos % 10 = 0 <;> simp [hf, he, hp, save_progress]

/-! ### Startup-phase lemmas -/

lemma computeStart_resume {fs : FS} {M : Int} {answer : String}
    (h1 : load_progress fs = some M) (h2 : M ≠ 0) (h3 : fs.tempCsv.isSome = true)
    (h4 : pyLower (pyStrip answer) = "y") :
    computeStart fs answer = (M + 1, fs) := by
  unfold computeStart
  rw [h1]
  simp [h2, h3, h4]

lemma computeStart_restart {fs : FS} {M : Int} {answer : String}
    (h1 : load_progress fs = some M) (h2 : M ≠ 0) (h3 : fs.tempCsv.isSome = true)
    (h4 : pyLower (pyStrip answer) ≠ "y") :
    computeStart fs answer = (1, { fs with tempCsv := none, progress := none }) := by
  unfold computeStart
  rw [h1]
  simp [h2, h3, h4]

lemma computeStart_none {fs : FS} {answer : String}
    (h : load_progress fs = none) :
    computeStart fs answer = (1, fs) := by
  unfold computeStart
  rw [h]

lemma computeStart_zero {fs : FS} {answer : String}
    (h : load_progress fs = some 0) :
    computeStart fs answer = (1, fs) := by
  unfold computeStart
  rw [h]
  simp

lemma resumePromptShown_none {fs : FS}
    (h : load_progress fs = none) : resumePromptShown fs = false := by
  unfold resumePromptShown
  rw [h]

lemma resumePromptShown_zero {fs : FS}
    (h : load_progress fs = some 0) : resumePromptShown fs = false := by
  unfold resumePromptShown
  rw [h]
  simp

lemma startupState_resume {fs : FS} {M : Int} {answer : String}
    (h1 : load_progress fs = some M) (h2 : M ≠ 0) (h3 : fs.tempCsv.isSome = true)
    (h4 : pyLower (pyStrip answer) = "y") :
    startupState fs answer = (M + 1, fs) := by
  unfold startupState
  rw [computeStart_resume h1 h2 h3 h4]
  have hne : M + 1 ≠ 1 := by omega
  simp [hne]

lemma startupState_of_computeStart_one {fs fs' : FS} {answer : String}
    (h : computeStart fs answer = (1, fs')) :
    startupState fs answer
      = (1, { fs' with tempCsv := some [CsvLine.header, CsvLine.row Row.emptyRow] }) := by
  unfold startupState
  rw [h]
  simp [append_to_csv]

lemma startupState_restart {fs : FS} {M : Int} {answer : String}
    (h1 : load_progress fs = some M) (h2 : M ≠ 0) (h3 : fs.tempCsv.isSome = true)
    (h4 : pyLower (pyStrip answer) ≠ "y") :
    startupState fs answer
      = (1, { fs with
              progress := none
              tempCsv := some [CsvLine.header, CsvLine.row Row.emptyRow] }) := by
  rw [startupState_of_computeStart_one (computeStart_restart h1 h2 h3 h4)]

lemma startupState_sinks (fs : FS) (answer : String) :
    (startupState fs answer).2.failedList = fs.failedList
      ∧ (startupState fs answer).2.failedLog = fs.failedLog := by
  unfold startupState computeStart
  cases hl : load_progress fs with
  | none => simp
  | some m =>
    by_cases hc : (m != 0 && fs.tempCsv.isSome) = true
    · by_cases hy : (pyLower (pyStrip answer) == "y") = true
      · simp only [hc, hy, if_true]
        by_cases h1 : m + 1 = 1 <;> simp [h1]
      · simp only [hc, if_true, hy, if_false]
        simp
    · simp [hc]

/-! ### Projections of the finished run -/

lemma process_trace (env : RunEnv) (fs0 : FS) :
    (process_tv_list env fs0).trace
      = runTrace env.lookup (startupState fs0 env.resumeAnswer).1 env.tvShows 1 := by
  unfold process_tv_list
  simp [processLoop_trace, initState]

lemma process_success_count (env : RunEnv) (fs0 : FS) :
    (process_tv_list env fs0).success_count
      = (processLoop env.lookup (startupState fs0 env.resumeAnswer).1 env.tvShows 1
          (initState (startupState fs0 env.resumeAnswer).2)).success_count := rfl

lemma process_failed_count (env : RunEnv) (fs0 : FS) :
    (process_tv_list env fs0).failed_count
      = (processLoop env.lookup (startupState fs0 env.resumeAnswer).1 env.tvShows 1
          (initState (startupState fs0 env.resumeAnswer).2)).failed_count := rfl

lemma process_results_eq (env : RunEnv) (fs0 : FS) :
    (process_tv_list env fs0).results
      = (processLoop env.lookup (startupState fs0 env.resumeAnswer).1 env.tvShows 1
          (initState (startupState fs0 env.resumeAnswer).2)).results := rfl

lemma process_failedList (env : RunEnv) (fs0 : FS) :
    (process_tv_list env fs0).fs.failedList
      = (processLoop env.lookup (startupState fs0 env.resumeAnswer).1 env.tvShows 1
          (initState (startupState fs0 env.resumeAnswer).2)).fs.failedList := rfl

/-! ### Decomposing the state after `k` items -/

lemma stateAfter_succ_item {env : RunEnv} {fs0 : FS} {k : Nat} {t : String}
    (ht : env.tvShows[k]? = some t) :
    stateAfter env fs0 (k + 1)
      = processItem env.lookup (startupState fs0 env.resumeAnswer).1
          (stateAfter env fs0 k) (k + 1) t := by
  have hk : k < env.tvShows.length := by
    rcases List.getElem?_eq_some.1 ht with ⟨h, _⟩
    exact h
  unfold stateAfter
  rw [List.take_succ, ht]
  have htl : (some t).toList = [t] := rfl
  rw [htl, processLoop_append]
  have hlen : (env.tvShows.take k).length = k := by
    rw [List.length_take]
    omega
  rw [hlen]
  have hone : ∀ st, processLoop env.lookup (startupState fs0 env.resumeAnswer).1 [t]
      (1 + k) st
      = processItem env.lookup (startupState fs0 env.resumeAnswer).1 st (1 + k) t :=
    fun st => rfl
  rw [hone]
  have harith : 1 + k = k + 1 := by omega
  rw [harith]

lemma stateAfter_progress {env : RunEnv} {fs0 : FS} {P : Nat}
    (h1 : 1 ≤ P) (h2 : P ≤ env.tvShows.length)
    (h3 : (startupState fs0 env.resumeAnswer).1 ≤ (P : Int))
    (hp : P % 10 = 0) :
    (stateAfter env fs0 P).fs.progress = some (toString P) := by
  obtain ⟨k, rfl⟩ : ∃ k, P = k + 1 := ⟨P - 1, by omega⟩
  obtain ⟨t, ht⟩ : ∃ t, env.tvShows[k]? = some t := by
    have hk : k < env.tvShows.length := by omega
    exact ⟨env.tvShows[k], List.getElem?_eq_getElem hk⟩
  rw [stateAfter_succ_item ht]
  exact processItem_progress _ _ _ (by omega) hp

/-! ### Retry-controller lemmas -/

lemma searchFrom_transient (item : Nat → AttemptOutcome) (maxRetries : Nat)
    {attempt : Nat} {ty m : String}
    (hr : item attempt = .raises ty m) (hretry : isRetryable (cleanupMsg m) = true)
    (hlt : attempt < maxRetries - 1) (fuel : Nat) :
    searchFrom item maxRetries (fuel + 1) attempt
      = ⟨(searchFrom item maxRetries fuel (attempt + 1)).found,
         (searchFrom item maxRetries fuel (attempt + 1)).error,
         2 ^ (attempt + 1) :: (searchFrom item maxRetries fuel (attempt + 1)).sleeps⟩ := by
  conv_lhs => rw [searchFrom, hr]
  simp [hretry, hlt]

lemma searchFrom_returns_nil (item : Nat → AttemptOutcome) (maxRetries fuel attempt : Nat)
    (h : item attempt = .returns []) :
    searchFrom item maxRetries (fuel + 1) attempt
      = ⟨none, some "No results found", []⟩ := by
  rw [searchFrom, h]

lemma searchFrom_returns_cons (item : Nat → AttemptOutcome) (maxRetries fuel attempt : Nat)
    (c : Candidate) (cs : List Candidate)
    (h : item attempt = .returns (c :: cs)) :
    searchFrom item maxRetries (fuel + 1) attempt
      = match candidateWalk (c :: cs) with
        | some found => ⟨some found, none, []⟩
        | none => ⟨none, some "No TV series found in results", []⟩ := by
  rw [searchFrom, h]

lemma searchFrom_raises_noretry (item : Nat → AttemptOutcome)
    (maxRetries fuel attempt : Nat) (ty m : String)
    (h : item attempt = .raises ty m) (hnr : isRetryable (cleanupMsg m) = false) :
    searchFrom item maxRetries (fuel + 1) attempt
      = ⟨none, some (ty ++ ": " ++ cleanupMsg m), []⟩ := by
  rw [searchFrom, h]
  simp [hnr]

lemma searchFrom_raises_exhausted (item : Nat → AttemptOutcome)
    (maxRetries fuel attempt : Nat) (ty m : String)
    (h : item attempt = .raises ty m) (hretry : isRetryable (cleanupMsg m) = true)
    (hge : ¬ attempt < maxRetries - 1) :
    searchFrom item maxRetries (fuel + 1) attempt
      = ⟨none, some (ty ++ ": " ++ cleanupMsg m), []⟩ := by
  rw [searchFrom, h]
  simp [hretry, hge]

lemma searchFrom_transient_take (item : Nat → AttemptOutcome) (maxRetries : Nat) :
    ∀ (i a fuel : Nat),
      (∀ k, k ≤ i → retryableRaise item (a + k)) →
      a + i + 1 < maxRetries → i + 1 ≤ fuel →
      (searchFrom item maxRetries fuel a).sleeps.take (i + 1)
        = (List.range (i + 1)).map (fun k => 2 ^ (a + k + 1)) := by
  intro i
  induction i with
  | zero =>
    intro a fuel hk hmr hfuel
    obtain ⟨ty, m, hr, hretry⟩ := hk 0 (le_refl 0)
    rw [Nat.add_zero] at hr
    obtain ⟨f, rfl⟩ : ∃ f, fuel = f + 1 := ⟨fuel - 1, by omega⟩
    rw [searchFrom_transient item maxRetries hr hretry (by omega) f]
    simp [show List.range 1 = [0] from rfl]
  | succ n ih =>
    intro a fuel hk hmr hfuel
    obtain ⟨ty, m, hr, hretry⟩ := hk 0 (Nat.zero_le _)
    rw [Nat.add_zero] at hr
    obtain ⟨f, rfl⟩ : ∃ f, fuel = f + 1 := ⟨fuel - 1, by omega⟩
    rw [searchFrom_transient item maxRetries hr hretry (by omega) f]
    have hrec := ih (a + 1) f
      (fun k hk' => by
        have hx := hk (k + 1) (by omega)
        rwa [show a + (k + 1) = (a + 1) + k by omega] at hx)
      (by omega) (by omega)
    simp only [List.take_succ_cons, hrec]
    conv_rhs => rw [List.range_succ_eq_map, List.map_cons, List.map_map]
    congr 1
    apply List.map_congr_left
    intro k _
    simp only [Function.comp_apply]
    congr 1
    omega

lemma processedCount_all {start : Int} :
    ∀ (n pos : Nat), start ≤ (pos : Int) → processedCount start pos n = n := by
  intro n
  induction n with
  | zero => intro pos _; rfl
  | succ m ih =>
    intro pos h
    unfold processedCount
    rw [if_neg (by omega), ih (pos + 1) (by push_cast; omega)]
    omega

/-! ### The claims -/

/-- C1: when a run is resumed with ProgressMarker `M` and the operator
accepts, the start position is `M + 1`, and no position `p ≤ M` gets a
lookup call or an outcome record. -/
theorem c1_resume_skips_completed (env : RunEnv) (fs0 : FS) (M : Int)
    (h1 : load_progress fs0 = some M) (h2 : M ≠ 0)
    (h3 : fs0.tempCsv.isSome = true)
    (h4 : pyLower (pyStrip env.resumeAnswer) = "y") :
    (startupState fs0 env.resumeAnswer).1 = M + 1
      ∧ ∀ p : Nat, (p : Int) ≤ M →
          Event.lookupCall p ∉ (process_tv_list env fs0).trace
          ∧ Event.successRecorded p ∉ (process_tv_list env fs0).trace
          ∧ Event.failureRecorded p ∉ (process_tv_list env fs0).trace := by
  have hs := startupState_resume h1 h2 h3 h4
  have hs1 : (startupState fs0 env.resumeAnswer).1 = M + 1 := by rw [hs]
  refine ⟨hs1, fun p hp => ?_⟩
  rw [process_trace]
  refine ⟨fun hmem => ?_, fun hmem => ?_, fun hmem => ?_⟩ <;>
  · have h := mem_runTrace_pos env.tvShows 1 _ p hmem rfl
    rw [hs1] at h
    omega

/-- C1 witness: marker `2`, store present, answer `y`: the start is `3`
and position `2` is never looked up. -/
theorem c1_resume_skips_completed_witness :
    (startupState fsC1 envC1.resumeAnswer).1 = 2 + 1
      ∧ Event.lookupCall 2 ∉ (process_tv_list envC1 fsC1).trace := by
  obtain ⟨ha, hb⟩ := c1_resume_skips_completed envC1 fsC1 2 (by decide) (by decide)
    (by decide) (by decide)
  exact ⟨ha, (hb 2 (by decide)).1⟩

/-- C2: immediately after a processed position `P` with `P % 10 = 0`, the
marker file holds exactly the decimal text of `P`; and the sequence of
markers persisted during the run is monotonically non-decreasing. -/
theorem c2_checkpoint_every_ten (env : RunEnv) (fs0 : FS) (P : Nat)
    (h1 : 1 ≤ P) (h2 : P ≤ env.tvShows.length)
    (h3 : (startupState fs0 env.resumeAnswer).1 ≤ (P : Int))
    (hp : P % 10 = 0) :
    (stateAfter env fs0 P).fs.progress = some (toString P)
      ∧ List.Chain' (· ≤ ·) (savedPositions (process_tv_list env fs0).trace) := by
  refine ⟨stateAfter_progress h1 h2 h3 hp, ?_⟩
  rw [process_trace]
  exact (runTrace_saved_mono env.tvShows 1).1

/-- C2 witness: ten-item fresh run; after position 10 the marker reads
`10`, and the saved markers are monotone. -/
theorem c2_checkpoint_every_ten_witness :
    (stateAfter envC2 fsEmpty 10).fs.progress = some (toString 10)
      ∧ List.Chain' (· ≤ ·) (savedPositions (process_tv_list envC2 fsEmpty).trace) :=
  c2_checkpoint_every_ten envC2 fsEmpty 10 (by decide) (by decide) (by decide)
    (by decide)

/-- C3 counterexample: a resumed run over `N = 1` items that skips its
single position ends with `success_count + failed_count = 0 ≠ N`, so the
claim as stated fails for resumed runs. -/
theorem c3_counterexample :
    ¬ ((process_tv_list envC3 fsC3).success_count
        + (process_tv_list envC3 fsC3).failed_count
      = envC3.tvShows.length) := by
  decide

/-- C3 amended: `success_count + failed_count` equals the number of
positions actually processed (all `N` when the run starts at position 1),
each processed position gets exactly one outcome record (never both kinds,
never none), skipped positions get none, successes are exactly the
in-memory results, and failures are exactly the lines appended to the
failed list. -/
theorem c3_outcome_partition (env : RunEnv) (fs0 : FS) :
    (process_tv_list env fs0).success_count + (process_tv_list env fs0).failed_count
        = processedCount (startupState fs0 env.resumeAnswer).1 1 env.tvShows.length
      ∧ ((startupState fs0 env.resumeAnswer).1 ≤ 1 →
          (process_tv_list env fs0).success_count
              + (process_tv_list env fs0).failed_count
            = env.tvShows.length)
      ∧ (∀ p : Nat, outcomeCount (process_tv_list env fs0).trace p
          = if 1 ≤ p ∧ p ≤ env.tvShows.length
                ∧ (startupState fs0 env.resumeAnswer).1 ≤ (p : Int)
            then 1 else 0)
      ∧ (process_tv_list env fs0).results.length
          = (process_tv_list env fs0).success_count
      ∧ (((process_tv_list env fs0).fs.failedList).getD []).length
          = ((fs0.failedList).getD []).length
            + (process_tv_list env fs0).failed_count := by
  have hcounts := processLoop_counts env.lookup (startupState fs0 env.resumeAnswer).1
    env.tvShows 1 (initState (startupState fs0 env.resumeAnswer).2)
  have hres := processLoop_results_len env.lookup (startupState fs0 env.resumeAnswer).1
    env.tvShows 1 (initState (startupState fs0 env.resumeAnswer).2)
  have hfl := processLoop_failedList_len env.lookup (startupState fs0 env.resumeAnswer).1
    env.tvShows 1 (initState (startupState fs0 env.resumeAnswer).2)
  have hsinks := startupState_sinks fs0 env.resumeAnswer
  refine ⟨?_, ?_, ?_, ?_, ?_⟩
  · rw [process_success_count, process_failed_count, hcounts]
    simp [initState]
  · intro hle
    rw [process_success_count, process_failed_count, hcounts]
    simp only [initState]
    rw [processedCount_all env.tvShows.length 1 (by exact_mod_cast hle)]
    omega
  · intro p
    rw [process_trace, outcomeCount_runTrace]
    split_ifs <;> omega
  · rw [process_results_eq, process_success_count]
    simp only [initState] at hres
    simpa using hres
  · rw [process_failedList, process_failed_count]
    simp only [initState] at hfl
    rw [hsinks.1] at hfl
    simpa using hfl

/-- C3 witness: a fresh three-item run has `success + failed = 3`, and a
middle position carries exactly one outcome record. -/
theorem c3_outcome_partition_witness :
    (process_tv_list envC2 fsEmpty).success_count
        + (process_tv_list envC2 fsEmpty).failed_count = envC2.tvShows.length
      ∧ outcomeCount (process_tv_list envC2 fsEmpty).trace 3
        = if 1 ≤ 3 ∧ 3 ≤ envC2.tvShows.length
              ∧ (startupState fsEmpty envC2.resumeAnswer).1 ≤ ((3 : Nat) : Int)
          then 1 else 0 := by
  obtain ⟨_, hb, hc, _, _⟩ := c3_outcome_partition envC2 fsEmpty
  exact ⟨hb (by decide), hc 3⟩

lemma errorOrNotFound_some_ne {e : String} (h : e ≠ "") :
    errorOrNotFound (some e) = e := by
  simp [errorOrNotFound, h]

lemma typed_msg_ne_empty (ty x : String) : ty ++ ": " ++ x ≠ "" := by
  intro h
  have hlen := congrArg String.length h
  rw [String.length_append, String.length_append] at hlen
  have h2 : (": " : String).length = 2 := rfl
  have h3 : ("" : String).length = 0 := rfl
  rw [h2, h3] at hlen
  omega

/-- C4: while attempts remain, a transient (429/405-class) error at
0-indexed attempt `i` produces a sleep of `2 ^ (i + 1)` seconds and a
retry, so the sleep schedule is 2, 4, 8, …; with the default three
attempts, transient errors on attempts 1 and 2 followed by a match on
attempt 3 sleep exactly 2s then 4s and the item is recorded as a
success; if all attempts raise transiently, the lookup fails with a
description combining the error type and message, after sleeping 2s and
4s. -/
theorem c4_transient_backoff :
    (∀ (item : Nat → AttemptOutcome) (maxRetries i : Nat),
        (∀ k, k ≤ i → retryableRaise item k) → i + 1 < maxRetries →
        (search_tv_show item maxRetries).sleeps.take (i + 1)
          = (List.range (i + 1)).map (fun k => 2 ^ (k + 1)))
      ∧ (∀ (item : Nat → AttemptOutcome) (ty0 m0 ty1 m1 : String)
            (c : Candidate) (cs : List Candidate) (cand : Candidate),
          item 0 = .raises ty0 m0 → isRetryable (cleanupMsg m0) = true →
          item 1 = .raises ty1 m1 → isRetryable (cleanupMsg m1) = true →
          item 2 = .returns (c :: cs) → candidateWalk (c :: cs) = some cand →
          search_tv_show item 3 = ⟨some cand, none, [2, 4]⟩)
      ∧ (∀ (lookup : Nat → Nat → AttemptOutcome) (start : Int) (st : LoopState)
            (pos : Nat) (title : String) (c : Candidate),
          ¬ (pos : Int) < start →
          (search_tv_show (lookup pos) 3).found = some c →
          c.extractError = none →
          (processItem lookup start st pos title).success_count = st.success_count + 1
            ∧ Event.successRecorded pos ∈ (processItem lookup start st pos title).trace)
      ∧ (∀ (item : Nat → AttemptOutcome) (ty0 m0 ty1 m1 ty2 m2 : String),
          item 0 = .raises ty0 m0 → isRetryable (cleanupMsg m0) = true →
          item 1 = .raises ty1 m1 → isRetryable (cleanupMsg m1) = true →
          item 2 = .raises ty2 m2 → isRetryable (cleanupMsg m2) = true →
          search_tv_show item 3
            = ⟨none, some (ty2 ++ ": " ++ cleanupMsg m2), [2, 4]⟩) := by
  refine ⟨?_, ?_, ?_, ?_⟩
  · intro item maxRetries i hk hmr
    have h := searchFrom_transient_take item maxRetries i 0 maxRetries
      (fun k hk' => by simpa using hk k hk') (by omega) (by omega)
    unfold search_tv_show
    simpa using h
  · intro item ty0 m0 ty1 m1 c cs cand h0 r0 h1 r1 h2 hw
    unfold search_tv_show
    have e1 : searchFrom item 3 3 0
        = ⟨(searchFrom item 3 2 1).found, (searchFrom item 3 2 1).error,
           2 ^ (0 + 1) :: (searchFrom item 3 2 1).sleeps⟩ :=
      searchFrom_transient item 3 h0 r0 (by omega) 2
    have e2 : searchFrom item 3 2 1
        = ⟨(searchFrom item 3 1 2).found, (searchFrom item 3 1 2).error,
           2 ^ (1 + 1) :: (searchFrom item 3 1 2).sleeps⟩ :=
      searchFrom_transient item 3 h1 r1 (by omega) 1
    have e3 : searchFrom item 3 1 2
        = match candidateWalk (c :: cs) with
          | some found => ⟨some found, none, []⟩
          | none => ⟨none, some "No TV series found in results", []⟩ :=
      searchFrom_returns_cons item 3 0 2 c cs h2
    rw [e1, e2, e3, hw]
    norm_num
  · intro lookup start st pos title c hskip hf he
    obtain ⟨hs, _, _, _, htr⟩ := processItem_success st title hskip hf he
    exact ⟨hs, htr⟩
  · intro item ty0 m0 ty1 m1 ty2 m2 h0 r0 h1 r1 h2 r2
    unfold search_tv_show
    have e1 : searchFrom item 3 3 0
        = ⟨(searchFrom item 3 2 1).found, (searchFrom item 3 2 1).error,
           2 ^ (0 + 1) :: (searchFrom item 3 2 1).sleeps⟩ :=
      searchFrom_transient item 3 h0 r0 (by omega) 2
    have e2 : searchFrom item 3 2 1
        = ⟨(searchFrom item 3 1 2).found, (searchFrom item 3 1 2).error,
           2 ^ (1 + 1) :: (searchFrom item 3 1 2).sleeps⟩ :=
      searchFrom_transient item 3 h1 r1 (by omega) 1
    have e3 : searchFrom item 3 1 2
        = ⟨none, some (ty2 ++ ": " ++ cleanupMsg m2), []⟩ :=
      searchFrom_raises_exhausted item 3 0 2 ty2 m2 h2 r2 (by omega)
    rw [e1, e2, e3]
    norm_num

/-- C4 witness: transient errors on attempts 1 and 2, then a match:
sleeps are exactly 2s then 4s, the candidate is returned, the item is a
success; a behavior that always raises transiently exhausts retries with
a combined error description. -/
theorem c4_transient_backoff_witness :
    (search_tv_show itemC4 3).sleeps.take 2 = [2, 4]
      ∧ search_tv_show itemC4 3 = ⟨some ⟨false, "tv series", none, 7⟩, none, [2, 4]⟩
      ∧ (processItem (fun _ => itemC4) 1 (initState fsEmpty) 1 "t").success_count
        = (initState fsEmpty).success_count + 1
      ∧ search_tv_show (fun _ => AttemptOutcome.raises "E" "HTTP 429: Too Many Requests") 3
        = ⟨none, some ("E" ++ ": " ++ cleanupMsg "HTTP 429: Too Many Requests"),
           [2, 4]⟩ := by
  obtain ⟨p1, p2, p3, p4⟩ := c4_transient_backoff
  have hr0 : retryableRaise itemC4 0 :=
    ⟨"IMDbDataAccessError", "HTTP 429: Too Many Requests", by decide, by decide⟩
  have hr1 : retryableRaise itemC4 1 :=
    ⟨"IMDbDataAccessError", "HTTP 429: Too Many Requests", by decide, by decide⟩
  refine ⟨?_, ?_, ?_, ?_⟩
  · have h := p1 itemC4 3 1 (fun k hk => ?_) (by omega)
    · have hmap : (List.range (1 + 1)).map (fun k => 2 ^ (k + 1)) = [2, 4] := by decide
      rw [hmap] at h
      exact h
    · interval_cases k
      · exact hr0
      · exact hr1
  · exact p2 itemC4 "IMDbDataAccessError" "HTTP 429: Too Many Requests"
      "IMDbDataAccessError" "HTTP 429: Too Many Requests"
      ⟨false, "tv series", none, 7⟩ [] ⟨false, "tv series", none, 7⟩
      (by decide) (by decide) (by decide) (by decide) (by decide) (by decide)
  · exact (p3 (fun _ => itemC4) 1 (initState fsEmpty) 1 "t"
      ⟨false, "tv series", none, 7⟩ (by decide) (by decide) (by decide)).1
  · exact p4 (fun _ => AttemptOutcome.raises "E" "HTTP 429: Too Many Requests")
      "E" "HTTP 429: Too Many Requests" "E" "HTTP 429: Too Many Requests"
      "E" "HTTP 429: Too Many Requests"
      (by decide) (by decide) (by decide) (by decide) (by decide) (by decide)

/-- C5: a permanent (non-retryable) error on the first attempt makes the
lookup fail immediately: no sleeps, the combined `type: message`
description, the result independent of later attempts, and exactly one
failure record appended to each sink. -/
theorem c5_permanent_no_retry (item : Nat → AttemptOutcome) (mr : Nat)
    (ty m : String) (lookup : Nat → Nat → AttemptOutcome) (start : Int)
    (st : LoopState) (pos : Nat) (title : String)
    (hmr : 0 < mr) (h0 : item 0 = .raises ty m)
    (hnr : isRetryable (cleanupMsg m) = false)
    (hl : lookup pos = item) (hskip : ¬ (pos : Int) < start) :
    search_tv_show item mr = ⟨none, some (ty ++ ": " ++ cleanupMsg m), []⟩
      ∧ (∀ item₂ : Nat → AttemptOutcome, item₂ 0 = item 0 →
          search_tv_show item₂ mr = ⟨none, some (ty ++ ": " ++ cleanupMsg m), []⟩)
      ∧ (processItem lookup start st pos title).fs.failedLog
        = some ((st.fs.failedLog.getD [])
            ++ [⟨pos, title, ty ++ ": " ++ cleanupMsg m⟩])
      ∧ (processItem lookup start st pos title).fs.failedList
        = some ((st.fs.failedList.getD []) ++ [title])
      ∧ (processItem lookup start st pos title).failed_count = st.failed_count + 1 := by
  obtain ⟨f, rfl⟩ : ∃ f, mr = f + 1 := ⟨mr - 1, by omega⟩
  have hsearch : search_tv_show item (f + 1)
      = ⟨none, some (ty ++ ": " ++ cleanupMsg m), []⟩ := by
    unfold search_tv_show
    exact searchFrom_raises_noretry item (f + 1) f 0 ty m h0 hnr
  have hsearch3 : search_tv_show item 3
      = ⟨none, some (ty ++ ": " ++ cleanupMsg m), []⟩ :=
    searchFrom_raises_noretry item 3 2 0 ty m h0 hnr
  have hf : (search_tv_show (lookup pos) 3).found = none := by
    rw [hl, hsearch3]
  obtain ⟨hlog, hlist, hcount, _⟩ := processItem_failure st title hskip hf
  have herr : errorOrNotFound (search_tv_show (lookup pos) 3).error
      = ty ++ ": " ++ cleanupMsg m := by
    rw [hl, hsearch3]
    exact errorOrNotFound_some_ne (typed_msg_ne_empty ty (cleanupMsg m))
  rw [herr] at hlog
  refine ⟨hsearch, fun item₂ h₂ => ?_, hlog, hlist, hcount⟩
  unfold search_tv_show
  exact searchFrom_raises_noretry item₂ (f + 1) f 0 ty m (h₂.trans h0) hnr

/-- C5 witness: a permanent parser error produces an immediate failure
with no sleeps and one failure record. -/
theorem c5_permanent_no_retry_witness :
    search_tv_show itemC5 3
        = ⟨none, some ("IMDbParserError" ++ ": " ++ cleanupMsg "something went wrong"), []⟩
      ∧ (processItem (fun _ => itemC5) 1 (initState fsEmpty) 1 "t").failed_count
        = (initState fsEmpty).failed_count + 1 := by
  obtain ⟨ha, _, _, _, he⟩ := c5_permanent_no_retry itemC5 3 "IMDbParserError"
    "something went wrong" (fun _ => itemC5) 1 (initState fsEmpty) 1 "t"
    (by decide) (by decide) (by decide) rfl (by decide)
  exact ⟨ha, he⟩

/-- C6: candidates are examined strictly in order; one whose details
fetch raises is skipped; the first with kind `tv series` or
`tv mini series` is accepted (the walk is `List.find?` of that
predicate); a non-empty list with no acceptable candidate yields the
no-matching-type failure; an empty search result yields the not-found
failure, in both cases with no sleeps. -/
theorem c6_candidate_walk :
    (∀ cands : List Candidate,
        candidateWalk cands
          = cands.find? fun c => !c.fetchRaises
              && (c.kind == "tv series" || c.kind == "tv mini series"))
      ∧ (∀ (item : Nat → AttemptOutcome) (mr : Nat) (c : Candidate)
            (cs : List Candidate) (cand : Candidate),
          0 < mr → item 0 = .returns (c :: cs) →
          candidateWalk (c :: cs) = some cand →
          search_tv_show item mr = ⟨some cand, none, []⟩)
      ∧ (∀ (item : Nat → AttemptOutcome) (mr : Nat) (c : Candidate)
            (cs : List Candidate),
          0 < mr → item 0 = .returns (c :: cs) →
          candidateWalk (c :: cs) = none →
          search_tv_show item mr = ⟨none, some "No TV series found in results", []⟩)
      ∧ (∀ (item : Nat → AttemptOutcome) (mr : Nat),
          0 < mr → item 0 = .returns [] →
          search_tv_show item mr = ⟨none, some "No results found", []⟩) := by
  refine ⟨?_, ?_, ?_, ?_⟩
  · intro cands
    induction cands with
    | nil => rfl
    | cons c rest ih =>
      by_cases hf : c.fetchRaises = true
      · rw [List.find?_cons_of_neg _ (by simp [hf])]
        rw [show candidateWalk (c :: rest) = candidateWalk rest by
          simp [candidateWalk, hf]]
        exact ih
      · by_cases h1 : c.kind = "tv series"
        · rw [List.find?_cons_of_pos _ (by simp [hf, h1])]
          simp [candidateWalk, hf, h1]
        · by_cases h2 : c.kind = "tv mini series"
          · rw [List.find?_cons_of_pos _ (by simp [hf, h2])]
            simp [candidateWalk, hf, h2]
          · rw [List.find?_cons_of_neg _ (by simp [hf, h1, h2])]
            rw [show candidateWalk (c :: rest) = candidateWalk rest by
              simp [candidateWalk, hf, h1, h2]]
            exact ih
  · intro item mr c cs cand hmr h0 hw
    obtain ⟨f, rfl⟩ : ∃ f, mr = f + 1 := ⟨mr - 1, by omega⟩
    unfold search_tv_show
    rw [searchFrom_returns_cons item (f + 1) f 0 c cs h0, hw]
  · intro item mr c cs hmr h0 hw
    obtain ⟨f, rfl⟩ : ∃ f, mr = f + 1 := ⟨mr - 1, by omega⟩
    unfold search_tv_show
    rw [searchFrom_returns_cons item (f + 1) f 0 c cs h0, hw]
  · intro item mr hmr h0
    obtain ⟨f, rfl⟩ : ∃ f, mr = f + 1 := ⟨mr - 1, by omega⟩
    unfold search_tv_show
    exact searchFrom_returns_nil item (f + 1) f 0 h0

/-- C6 witness: a raising candidate is skipped, a wrong-kind candidate
is skipped, the third is accepted; an empty result list yields the
not-found failure. -/
theorem c6_candidate_walk_witness :
    candidateWalk candsC6
        = candsC6.find? (fun c => !c.fetchRaises
            && (c.kind == "tv series" || c.kind == "tv mini series"))
      ∧ search_tv_show itemC6 3 = ⟨some ⟨false, "tv series", none, 3⟩, none, []⟩
      ∧ search_tv_show (fun _ => AttemptOutcome.returns []) 3
        = ⟨none, some "No results found", []⟩ := by
  obtain ⟨p1, p2, _, p4⟩ := c6_candidate_walk
  refine ⟨p1 candsC6, ?_, ?_⟩
  · exact p2 itemC6 3 ⟨true, "tv series", none, 1⟩
      [⟨false, "movie", none, 2⟩, ⟨false, "tv series", none, 3⟩]
      ⟨false, "tv series", none, 3⟩ (by decide) (by decide) (by decide)
  · exact p4 (fun _ => AttemptOutcome.returns []) 3 (by decide) (by decide)

/-- C7: at completion, FinalOutput is the header plus exactly the
current segment's in-memory results (for every starting filesystem, so
independently of the ProvisionalStore's content), then the temp CSV and
the marker are deleted; consequently, on a resume-and-complete cycle, a
record for any position `p ≤ M` (committed to the store before the
interruption) is absent from FinalOutput. -/
theorem c7_finalize_from_memory (env : RunEnv) (fs0 : FS) :
    (process_tv_list env fs0).fs.finalOut
        = some (CsvLine.header :: (process_tv_list env fs0).results.map CsvLine.row)
      ∧ (process_tv_list env fs0).fs.tempCsv = none
      ∧ (process_tv_list env fs0).fs.progress = none
      ∧ (∀ M : Int, load_progress fs0 = some M → M ≠ 0 →
          fs0.tempCsv.isSome = true → pyLower (pyStrip env.resumeAnswer) = "y" →
          ∀ p c : Nat, (p : Int) ≤ M →
            CsvLine.row (Row.dataRow p c)
              ∉ ((process_tv_list env fs0).fs.finalOut.getD [])) := by
  refine ⟨rfl, rfl, rfl, ?_⟩
  intro M h1 h2 h3 h4 p c hpM hmem
  have hfo : ((process_tv_list env fs0).fs.finalOut.getD [])
      = CsvLine.header :: (process_tv_list env fs0).results.map CsvLine.row := rfl
  rw [hfo] at hmem
  rcases List.mem_cons.1 hmem with h | h
  · exact absurd h (by simp)
  · obtain ⟨r, hr, heq⟩ := List.mem_map.1 h
    injection heq with heq'
    subst heq'
    rw [process_results_eq] at hr
    rcases processLoop_results_mem env.tvShows 1 _ _ hr with h | ⟨q, c', heq', hge⟩
    · simp [initState] at h
    · injection heq' with hq hc
      subst hq
      have hs1 : (startupState fs0 env.resumeAnswer).1 = M + 1 := by
        rw [startupState_resume h1 h2 h3 h4]
      rw [hs1] at hge
      omega

/-- C7 witness: resumed two-item run whose store held a position-1
success: FinalOutput is header plus this segment's results, the
checkpoint artifacts are gone, and the old record is absent. -/
theorem c7_finalize_from_memory_witness :
    (process_tv_list envC7 fsC7).fs.finalOut
        = some (CsvLine.header :: (process_tv_list envC7 fsC7).results.map CsvLine.row)
      ∧ (process_tv_list envC7 fsC7).fs.tempCsv = none
      ∧ (process_tv_list envC7 fsC7).fs.progress = none
      ∧ CsvLine.row (Row.dataRow 1 5)
        ∉ ((process_tv_list envC7 fsC7).fs.finalOut.getD []) := by
  obtain ⟨ha, hb, hc, hd⟩ := c7_finalize_from_memory envC7 fsC7
  exact ⟨ha, hb, hc, hd 1 (by decide) (by decide) (by decide) (by decide) 1 5 (by decide)⟩

/-- C8: with both checkpoint artifacts present, answering anything but
`y` deletes both the temp CSV and the marker, leaves both failure sinks
untouched, and the run then starts at position 1 (looking up position 1
when the list is non-empty). -/
theorem c8_restart_deletes_checkpoint (env : RunEnv) (fs0 : FS) (M : Int)
    (h1 : load_progress fs0 = some M) (h2 : M ≠ 0)
    (h3 : fs0.tempCsv.isSome = true)
    (h4 : pyLower (pyStrip env.resumeAnswer) ≠ "y") :
    (computeStart fs0 env.resumeAnswer).1 = 1
      ∧ (computeStart fs0 env.resumeAnswer).2.tempCsv = none
      ∧ (computeStart fs0 env.resumeAnswer).2.progress = none
      ∧ (computeStart fs0 env.resumeAnswer).2.failedLog = fs0.failedLog
      ∧ (computeStart fs0 env.resumeAnswer).2.failedList = fs0.failedList
      ∧ (startupState fs0 env.resumeAnswer).1 = 1
      ∧ (startupState fs0 env.resumeAnswer).2.failedLog = fs0.failedLog
      ∧ (startupState fs0 env.resumeAnswer).2.failedList = fs0.failedList
      ∧ (env.tvShows ≠ [] → Event.lookupCall 1 ∈ (process_tv_list env fs0).trace) := by
  have hc := computeStart_restart h1 h2 h3 h4
  have hs := startupState_restart h1 h2 h3 h4
  have hs1 : (startupState fs0 env.resumeAnswer).1 = 1 := by rw [hs]
  refine ⟨by rw [hc], by rw [hc], by rw [hc], by rw [hc], by rw [hc],
    hs1, by rw [hs], by rw [hs], ?_⟩
  intro hne
  rw [process_trace, hs1]
  obtain ⟨t, rest, hrw⟩ : ∃ t rest, env.tvShows = t :: rest := by
    rcases henv : env.tvShows with _ | ⟨a, b⟩
    · exact absurd henv hne
    · exact ⟨a, b, rfl⟩
  rw [hrw, runTrace]
  apply List.mem_append_left
  unfold itemTrace
  rw [if_neg (by omega)]
  exact List.mem_append_left _ (List.mem_cons_self _ _)

/-- C8 witness: marker `5`, store present, pre-existing failure sinks,
answer `n`: both checkpoint artifacts are deleted, the sinks keep their
contents, and processing starts by looking up position 1. -/
theorem c8_restart_deletes_checkpoint_witness :
    (computeStart fsC8 envC8.resumeAnswer).1 = 1
      ∧ (computeStart fsC8 envC8.resumeAnswer).2.tempCsv = none
      ∧ (computeStart fsC8 envC8.resumeAnswer).2.progress = none
      ∧ (computeStart fsC8 envC8.resumeAnswer).2.failedLog = fsC8.failedLog
      ∧ (computeStart fsC8 envC8.resumeAnswer).2.failedList = fsC8.failedList
      ∧ Event.lookupCall 1 ∈ (process_tv_list envC8 fsC8).trace := by
  obtain ⟨ha, hb, hc, hd, he, _, _, _, hi⟩ :=
    c8_restart_deletes_checkpoint envC8 fsC8 5 (by decide) (by decide) (by decide)
      (by decide)
  exact ⟨ha, hb, hc, hd, he, hi (by decide)⟩

/-- C9 counterexample: with no checkpoint artifacts, the freshly created
ProvisionalStore is not header-only: the header-writing call also writes
one empty data row, so the store has two lines. -/
theorem c9_counterexample :
    (startupState fsEmpty envC9.resumeAnswer).2.tempCsv ≠ some [CsvLine.header] := by
  decide

/-- C9 amended: when the ProgressMarker does not exist (in particular
when neither checkpoint artifact exists), the run starts at position 1
and, before any item is processed, a fresh ProvisionalStore is created
holding the header row followed by exactly one empty data row (emitted
by the same header-writing call). -/
theorem c9_fresh_start (fs : FS) (answer : String)
    (h1 : fs.progress = none) :
    (startupState fs answer).1 = 1
      ∧ (startupState fs answer).2.tempCsv
        = some [CsvLine.header, CsvLine.row Row.emptyRow] := by
  have hl : load_progress fs = none := by
    unfold load_progress
    rw [h1]
  have hs := startupState_of_computeStart_one (@computeStart_none fs answer hl)
  exact ⟨by rw [hs], by rw [hs]⟩

/-- C9 witness: empty filesystem: start is 1 and the store holds the
header plus one empty row. -/
theorem c9_fresh_start_witness :
    (startupState fsEmpty envC9.resumeAnswer).1 = 1
      ∧ (startupState fsEmpty envC9.resumeAnswer).2.tempCsv
        = some [CsvLine.header, CsvLine.row Row.emptyRow] :=
  c9_fresh_start fsEmpty envC9.resumeAnswer (by decide)

/-- C10: loading the marker is total — an absent marker file loads as
`none`, unparsable content loads as `none` — and a stored marker of `0`
is treated like an absent one: the resume prompt is not shown and the
run starts fresh at position 1 with a re-initialized store. -/
theorem c10_load_progress_total (fs : FS) (answer : String) :
    (fs.progress = none → load_progress fs = none)
      ∧ (∀ s, fs.progress = some s → parsePyInt s = none → load_progress fs = none)
      ∧ (load_progress fs = some 0 →
          resumePromptShown fs = false
            ∧ (startupState fs answer).1 = 1
            ∧ (startupState fs answer).2.tempCsv
              = some [CsvLine.header, CsvLine.row Row.emptyRow]) := by
  refine ⟨?_, ?_, ?_⟩
  · intro h
    unfold load_progress
    rw [h]
  · intro s hs hp
    unfold load_progress
    rw [hs]
    exact hp
  · intro h0
    have hs := startupState_of_computeStart_one (@computeStart_zero fs answer h0)
    exact ⟨resumePromptShown_zero h0, by rw [hs], by rw [hs]⟩

/-- C10 witness: an absent marker loads as none, garbage content loads
as none, and a marker holding `0` (even with the store present) shows no
prompt and starts fresh at 1. -/
theorem c10_load_progress_total_witness :
    load_progress fsEmpty = none
      ∧ load_progress fsC10b = none
      ∧ (resumePromptShown fsC10a = false
          ∧ (startupState fsC10a "y").1 = 1
          ∧ (startupState fsC10a "y").2.tempCsv
            = some [CsvLine.header, CsvLine.row Row.emptyRow]) := by
  refine ⟨(c10_load_progress_total fsEmpty "y").1 (by decide),
    (c10_load_progress_total fsC10b "y").2.1 "not a number" (by decide) (by decide),
    (c10_load_progress_total fsC10a "y").2.2 (by decide)⟩

end ListToTMDB
